import Mathlib

/-!
Shallow embedding of the jay-macros module (src/scripts/main.mjs) and proofs
about its specification claims.

The module populates a quick-access hotbar page with macros derived from the
items of the currently selected tokens.  The embedding below models, from the
source:

* the eligibility predicate isItemAction and the classifier
  getItemActivationType (main.mjs lines 45-57 and 75-83);
* the per-token item aggregation with the favorites override
  (updateMacrosForSelectedTokens, lines 241-263);
* the hotbar reconciliation: destroyMacros (lines 319-327), free-slot
  discovery, macro creation and the bulk slot write (lines 189-219 and
  286-316);
* the promise work queue (workQueue = workQueue.then(...), lines 160-163 and
  340-342) and the 100 ms debounce (scheduleUpdate, lines 333-344);
* the filter-click controller (handleFilterClick, lines 156-164, and
  filterItemsByType, lines 100-108).

JavaScript strings are embedded as Lean String, nullable/optional fields as
Option, and the nullish item of an unresolved favorite as Option Item.
-/

namespace JayMacros

/-- Activation data of one activity: the JS field activity.activation.type.
An absent field is Option.none; the empty string is a present, falsy value. -/
structure Activation where
  type : Option String
deriving DecidableEq, Repr

/-- One entry of item.system.activities; the activation record may be absent. -/
structure Activity where
  activation : Option Activation
deriving DecidableEq, Repr

/-- An item of an actor: its activities collection, its JS type field
(item.type, used for the spell check) and the value of
item.getRelativeUUID(actor) used for favorites resolution.  The display
name/img/command fields play no role in any claim and are not modelled
separately; the item value itself stands for them. -/
structure Item where
  activities : List Activity
  itype : String
  relUuid : String
deriving DecidableEq, Repr

/-- One favorites entry of actor.system.favorites: fields type and id. -/
structure Favorite where
  ftype : String
  id : String
deriving DecidableEq, Repr

/-- An actor: its items collection and its favorites list. -/
structure Actor where
  items : List Item
  favorites : List Favorite
deriving DecidableEq, Repr

/-- A token; token.actor may be absent. -/
structure Token where
  actor : Option Actor
deriving DecidableEq, Repr

/-- The module settings read during a pass: the six eligibility toggles, the
target hotbar page and the experimental-filters flag. -/
structure Config where
  action : Bool
  bonus : Bool
  reaction : Bool
  special : Bool
  none : Bool
  empty : Bool
  hotbarPage : Nat
  experimentalFilters : Bool
deriving DecidableEq, Repr

/-- ACTION_LOOKUP from main.mjs lines 14-20: setting key to activation type. -/
def ACTION_LOOKUP : List (String × String) :=
  [("action", "action"), ("bonus", "bonus"), ("reaction", "reaction"),
   ("special", "special"), ("none", "none")]

/-- game.settings.get for the five activation-type keys of ACTION_LOOKUP. -/
def settingOf (cfg : Config) (key : String) : Bool :=
  if key = "action" then cfg.action
  else if key = "bonus" then cfg.bonus
  else if key = "reaction" then cfg.reaction
  else if key = "special" then cfg.special
  else if key = "none" then cfg.none
  else false

/-- The allowedActions list of isItemAction (main.mjs lines 50-53): values of
ACTION_LOOKUP whose setting toggle is on. -/
def allowedActions (cfg : Config) : List String :=
  (ACTION_LOOKUP.filter (fun kv => settingOf cfg kv.1)).map Prod.snd

/-- The JS expression a?.activation?.type as an optional value. -/
def activationTypeOf (a : Activity) : Option String :=
  a.activation.bind Activation.type

/-- The test applied to each activity in isItemAction (main.mjs line 55):
a?.activation?.type && actionTypes.includes(a.activation.type).
A missing type is nullish and the empty string is falsy, so both fail the
left conjunct. -/
def activityAllowed (cfg : Config) (a : Activity) : Bool :=
  match activationTypeOf a with
  | Option.none => false
  | Option.some t => (!(t = "")) && (allowedActions cfg).contains t

/-- isItemAction from main.mjs lines 45-57.  The argument is Option Item
because the call sites can pass the undefined result of an unresolved
favorite; for such a value (and for an item with no activities) the guard
!item?.system?.activities?.size is taken and the empty toggle is returned.
Otherwise some activity must pass activityAllowed. -/
def isItemAction (cfg : Config) (item : Option Item) : Bool :=
  match item with
  | Option.none => cfg.empty
  | Option.some it =>
    if it.activities.length = 0 then cfg.empty
    else it.activities.any (activityAllowed cfg)

/-- getItemActivationType from main.mjs lines 75-83: empty when there are no
activities, otherwise the first activity's activation type, defaulting to
none only when that field is nullish. -/
def getItemActivationType (item : Option Item) : String :=
  match item with
  | Option.none => "empty"
  | Option.some it =>
    match it.activities with
    | [] => "empty"
    | a :: _ =>
      match activationTypeOf a with
      | Option.none => "none"
      | Option.some t => t

/-- The configuration toggle selected by a category name, used to state the
spec sentence isEligible(entity, config) = config[classify(entity)]. -/
def configToggle (cfg : Config) (cat : String) : Bool :=
  if cat = "action" then cfg.action
  else if cat = "bonus" then cfg.bonus
  else if cat = "reaction" then cfg.reaction
  else if cat = "special" then cfg.special
  else if cat = "none" then cfg.none
  else if cat = "empty" then cfg.empty
  else false

/-- isSpell from main.mjs lines 90-92. -/
def isSpell (item : Option Item) : Bool :=
  match item with
  | Option.none => false
  | Option.some it => it.itype = "spell"

/-- filterItemsByType from main.mjs lines 100-108.  A nullish or empty-string
filter is falsy and returns the list unchanged; the spell filter tests
item.type; any other filter compares the classified activation type. -/
def filterItemsByType (items : List (Option Item)) (filter : Option String) :
    List (Option Item) :=
  match filter with
  | Option.none => items
  | Option.some f =>
    if f = "" then items
    else if f = "spell" then items.filter isSpell
    else items.filter (fun it => getItemActivationType it = f)

/-- The favorites resolver itemByRelUuid from main.mjs line 252:
items.find of a matching relative UUID; Option.none when nothing matches. -/
def itemByRelUuid (actorItems : List Item) (fav : Favorite) : Option Item :=
  actorItems.find? (fun i => i.relUuid = fav.id)

/-- The per-token candidate list of updateMacrosForSelectedTokens (main.mjs
lines 245-257): the actor item list, overridden, when the favorites list is
non-empty, by the item-typed favorites mapped through the resolver (the map
keeps an absent entry for every favorite that resolves to nothing). -/
def candidateItems (actor : Actor) : List (Option Item) :=
  if actor.favorites.length ≠ 0 then
    (actor.favorites.filter (fun fav => fav.ftype = "item")).map
      (itemByRelUuid actor.items)
  else
    actor.items.map Option.some

/-- Items contributed by one token (main.mjs lines 241-262): nothing when the
token has no actor, otherwise the candidate list filtered by isItemAction. -/
def collectTokenItems (cfg : Config) (tok : Token) : List (Option Item) :=
  match tok.actor with
  | Option.none => []
  | Option.some actor => (candidateItems actor).filter (isItemAction cfg)

/-- The aggregate allItems list of updateMacrosForSelectedTokens (main.mjs
lines 240-263): tokens processed in order, contributions concatenated. -/
def collectItems (cfg : Config) (tokens : List Token) : List (Option Item) :=
  tokens.flatMap (collectTokenItems cfg)

/-- A macro document as far as the claims observe it: the autoMacro flag set
by createMacroData and the item the macro was built from (standing for the
name, img and command fields copied from that item). -/
structure Macro where
  auto : Bool
  payload : Option Item
deriving DecidableEq, Repr

/-- createMacroData from main.mjs lines 59-68, followed by Macro.create: the
resulting document carries the autoMacro flag and the item data. -/
def createMacroData (item : Option Item) : Macro :=
  { auto := true, payload := item }

/-- The hotbar: each slot index holds a macro or is empty. -/
def Hotbar : Type := Nat → Option Macro

/-- The ten slot indices of one hotbar page, ascending: page p covers slots
(p-1)*10+1 .. p*10, the order game.user.getHotbarMacros(page) reports. -/
def pageSlots (page : Nat) : List Nat :=
  (List.range 10).map (fun k => (page - 1) * 10 + k + 1)

/-- Whether a slot currently holds a macro carrying the autoMacro flag, the
test of destroyMacros (main.mjs line 322). -/
def isAutoSlot (slot : Option Macro) : Bool :=
  match slot with
  | Option.none => false
  | Option.some m => m.auto

/-- destroyMacros from main.mjs lines 319-327: the auto-flagged macros found
on the configured page are deleted, which frees exactly those slots.  Slots
off the page, empty slots and user-placed (unflagged) macros are untouched. -/
def destroyMacros (page : Nat) (h : Hotbar) : Hotbar :=
  fun i => if i ∈ pageSlots page ∧ isAutoSlot (h i) = true then Option.none
           else h i

/-- The freeSlots list (main.mjs lines 190-192): slot indices of the target
page whose macro is nullish, in ascending page order. -/
def freeSlots (page : Nat) (h : Hotbar) : List Nat :=
  (pageSlots page).filter (fun i => (h i).isNone)

/-- The placement loop of main.mjs lines 208-212: each created macro is
paired with the next free slot (freeSlots.shift), so the pairs are the zip
of the created macros with the free-slot list. -/
def placedPairs (page : Nat) (items : List (Option Item)) (h : Hotbar) :
    List (Macro × Nat) :=
  ((items.take (freeSlots page h).length).map createMacroData).zip
    (freeSlots page h)

/-- The bulk hotbar write (main.mjs lines 206-215): a clone of the current
hotbar with each pair's slot set to its macro, observed as one update. -/
def writePairs (pairs : List (Macro × Nat)) (h : Hotbar) : Hotbar :=
  pairs.foldl (fun g p => fun i => if i = p.2 then Option.some p.1 else g i) h

/-- Result of one reconciliation pass: the final hotbar and the entries the
pass created and placed. -/
structure PassOut where
  hotbar : Hotbar
  placed : List (Macro × Nat)

/-- updateMacrosForFilter from main.mjs lines 169-219 as a state function.
Steps in source order: destroy the auto macros; return if the collected
list is empty; filter by the current filter; return if nothing matches;
compute free slots and macro data; return if no macro data; create the
macros and bulk-write the paired slots. -/
def updateMacrosForFilterModel (page : Nat) (collected : List (Option Item))
    (currentFilter : Option String) (h : Hotbar) : PassOut :=
  let h1 := destroyMacros page h
  if collected.length = 0 then { hotbar := h1, placed := [] }
  else
    let filteredItems := filterItemsByType collected currentFilter
    if filteredItems.length = 0 then { hotbar := h1, placed := [] }
    else
      let pairs := placedPairs page filteredItems h1
      if pairs.length = 0 then { hotbar := h1, placed := [] }
      else { hotbar := writePairs pairs h1, placed := pairs }

/-- The module-global state a pass reads and writes: the hotbar, the
collectedItems cache and the currentFilter (main.mjs lines 22-25). -/
structure ModState where
  hotbar : Hotbar
  collectedItems : List (Option Item)
  currentFilter : Option String

/-- updateMacrosForSelectedTokens from main.mjs lines 225-316 as a state
function over the selection read at pass start.  Empty selection: clear the
cache and the filter, destroy the auto macros, place nothing.  Otherwise
collect items; with none found behave as for an empty selection except that
the cache keeps the empty list assigned at line 266.  With experimental
filters on, delegate to updateMacrosForFilter; otherwise reset the filter,
destroy, then create and place macros for as many items as fit. -/
def updateMacrosForSelectedTokensModel (cfg : Config) (tokens : List Token)
    (st : ModState) : ModState × List (Macro × Nat) :=
  if tokens.length = 0 then
    ({ hotbar := destroyMacros cfg.hotbarPage st.hotbar,
       collectedItems := [], currentFilter := Option.none }, [])
  else
    let allItems := collectItems cfg tokens
    if allItems.length = 0 then
      ({ hotbar := destroyMacros cfg.hotbarPage st.hotbar,
         collectedItems := allItems, currentFilter := Option.none }, [])
    else if cfg.experimentalFilters then
      let out := updateMacrosForFilterModel cfg.hotbarPage allItems
        st.currentFilter st.hotbar
      ({ hotbar := out.hotbar, collectedItems := allItems,
         currentFilter := st.currentFilter }, out.placed)
    else
      let h1 := destroyMacros cfg.hotbarPage st.hotbar
      let pairs := placedPairs cfg.hotbarPage allItems h1
      if pairs.length = 0 then
        ({ hotbar := h1, collectedItems := allItems,
           currentFilter := Option.none }, [])
      else
        ({ hotbar := writePairs pairs h1, collectedItems := allItems,
           currentFilter := Option.none }, pairs)

/-- Outcome of one reconciliation pass as the work queue observes it: its
promise fulfills or rejects. -/
inductive TaskOutcome where
  | ok : TaskOutcome
  | err : TaskOutcome
deriving DecidableEq, Repr

/-- The promise chain workQueue = workQueue.then(task) (main.mjs lines 22,
160-163, 341).  The Bool argument is whether the current workQueue promise
is fulfilled (Promise.resolve() starts it fulfilled).  A one-argument then
runs its callback only when the chained-on promise fulfilled; when that
promise rejected, the callback is skipped and the rejection propagates to
the new workQueue promise.  The result lists, per enqueued task in FIFO
order, whether the task actually executed. -/
def chainExec (fulfilled : Bool) : List TaskOutcome → List Bool
  | [] => []
  | o :: rest =>
    if fulfilled then true :: chainExec (o = TaskOutcome.ok) rest
    else false :: chainExec false rest

/-- The debounce of scheduleUpdate (main.mjs lines 333-344) over a burst of
notify events, each event carrying its time and the selection snapshot at
that moment.  Each call clears any pending timeout and arms a fresh
100-unit one, so an event is followed by an enqueue exactly when no further
event arrives within 100 units; the enqueued pass then reads the selection
current at fire time, which is the snapshot of that latest event.  The
result lists the selections the enqueued passes run with, in order. -/
def debounceEnqueues {σ : Type} : List (Nat × σ) → List σ
  | [] => []
  | [(_, s)] => [s]
  | (t₁, s₁) :: (t₂, s₂) :: rest =>
    if t₂ < t₁ + 100 then debounceEnqueues ((t₂, s₂) :: rest)
    else s₁ :: debounceEnqueues ((t₂, s₂) :: rest)

/-- State of the filter-click controller: the global currentFilter and the
number of updateMacrosForFilter thunks sitting in the work queue.  The
thunks are parameterless: they read currentFilter only when they run
(main.mjs lines 160-163 call updateMacrosForFilter with no argument). -/
structure FilterCtl where
  currentFilter : Option String
  queuedPasses : Nat
deriving Repr

/-- handleFilterClick from main.mjs lines 156-164: synchronously overwrite
the global currentFilter, then append one pass to the work queue. -/
def handleFilterClickModel (filter : Option String) (st : FilterCtl) :
    FilterCtl :=
  { currentFilter := filter, queuedPasses := st.queuedPasses + 1 }

/-- A burst of filter clicks processed before any queued pass runs. -/
def processClicks (clicks : List (Option String)) (st : FilterCtl) :
    FilterCtl :=
  clicks.foldl (fun s c => handleFilterClickModel c s) st

/-- Running the queued passes after the burst: each pass filters the
collected items by the global currentFilter as it stands when the pass
begins executing (updateMacrosForFilter line 180 reads the global). -/
def runQueuedFilters (st : FilterCtl) (collected : List (Option Item)) :
    List (List (Option Item)) :=
  List.replicate st.queuedPasses (filterItemsByType collected st.currentFilter)

/-- The aggregator as the specification describes it, for comparison with the
code: item-typed favorites are resolved by relative reference, favorites
that resolve to no matching entity are excluded, and the survivors pass
through the eligibility filter in their original order. -/
def specFavoritesAggregate (cfg : Config) (actor : Actor) : List Item :=
  ((actor.favorites.filter (fun fav => fav.ftype = "item")).filterMap
      (itemByRelUuid actor.items)).filter
    (fun i => isItemAction cfg (Option.some i))

/-! Concrete inputs used by counterexamples, scenario conjuncts and witness
theorems. -/

/-- Configuration with only the none toggle on. -/
def cfgNoneOnly : Config :=
  { action := false, bonus := false, reaction := false, special := false,
    none := true, empty := false, hotbarPage := 5,
    experimentalFilters := false }

/-- Configuration with only the empty toggle on. -/
def cfgEmptyOnly : Config :=
  { action := false, bonus := false, reaction := false, special := false,
    none := false, empty := true, hotbarPage := 5,
    experimentalFilters := false }

/-- The default configuration the module registers: action, bonus, reaction
and special on, none and empty off, page 5, filters off. -/
def cfgDefault : Config :=
  { action := true, bonus := true, reaction := true, special := true,
    none := false, empty := false, hotbarPage := 5,
    experimentalFilters := false }

/-- An item whose single activity declares no activation type. -/
def itemNoType : Item :=
  { activities := [{ activation := Option.some { type := Option.none } }],
    itype := "feat", relUuid := "rNoType" }

/-- An item whose first activity requires an action. -/
def itemAct : Item :=
  { activities := [{ activation := Option.some { type := Option.some "action" } }],
    itype := "weapon", relUuid := "rAct" }

/-- A second action item, distinct from itemAct. -/
def itemAct2 : Item :=
  { activities := [{ activation := Option.some { type := Option.some "action" } }],
    itype := "feat", relUuid := "rAct2" }

/-- A bonus-action item. -/
def itemBonus : Item :=
  { activities := [{ activation := Option.some { type := Option.some "bonus" } }],
    itype := "feat", relUuid := "rBonus" }

/-- An actor whose single favorite references nothing in its item list. -/
def actorDangling : Actor :=
  { items := [], favorites := [{ ftype := "item", id := "ghost" }] }

/-- An actor with one resolvable and one unresolvable favorite. -/
def actorMixedFavs : Actor :=
  { items := [itemAct, itemBonus],
    favorites := [{ ftype := "item", id := "rAct" },
                  { ftype := "item", id := "ghost" },
                  { ftype := "item", id := "rBonus" }] }

/-- A hotbar whose page-5 slots are all occupied by user macros except slot
43, with every slot off page 5 empty. -/
def hotbarOneFree : Hotbar := fun i =>
  if 41 ≤ i ∧ i ≤ 50 ∧ i ≠ 43 then
    Option.some { auto := false, payload := Option.none }
  else Option.none

/-- A hotbar holding an auto macro at slot 41, a user macro at slot 42 and a
user macro at slot 7, everything else empty. -/
def hotbarMixed : Hotbar := fun i =>
  if i = 41 then Option.some { auto := true, payload := Option.some itemAct }
  else if i = 42 then Option.some { auto := false, payload := Option.none }
  else if i = 7 then Option.some { auto := false, payload := Option.some itemBonus }
  else Option.none

/-- Membership in the allowedActions list spelled out per category. -/
lemma mem_allowedActions (cfg : Config) (t : String) :
    t ∈ allowedActions cfg ↔
      ((t = "action" ∧ cfg.action = true) ∨ (t = "bonus" ∧ cfg.bonus = true) ∨
       (t = "reaction" ∧ cfg.reaction = true) ∨
       (t = "special" ∧ cfg.special = true) ∨
       (t = "none" ∧ cfg.none = true)) := by
  simp only [allowedActions, ACTION_LOOKUP, List.mem_map, List.mem_filter]
  constructor
  · rintro ⟨⟨k, v⟩, ⟨hmem, hset⟩, rfl⟩
    simp only [List.mem_cons, List.not_mem_nil, or_false] at hmem
    rcases hmem with h | h | h | h | h <;>
      · injection h with h1 h2
        subst h1
        subst h2
        simp_all [settingOf]
  · rintro (⟨rfl, h⟩ | ⟨rfl, h⟩ | ⟨rfl, h⟩ | ⟨rfl, h⟩ | ⟨rfl, h⟩)
    · exact ⟨("action", "action"), ⟨by simp, by simp [settingOf, h]⟩, rfl⟩
    · exact ⟨("bonus", "bonus"), ⟨by simp, by simp [settingOf, h]⟩, rfl⟩
    · exact ⟨("reaction", "reaction"), ⟨by simp, by simp [settingOf, h]⟩, rfl⟩
    · exact ⟨("special", "special"), ⟨by simp, by simp [settingOf, h]⟩, rfl⟩
    · exact ⟨("none", "none"), ⟨by simp, by simp [settingOf, h]⟩, rfl⟩

/-- The per-activity test of isItemAction, characterized: the activity must
declare one of the five known categories and its toggle must be on. -/
lemma activityAllowed_iff (cfg : Config) (a : Activity) :
    activityAllowed cfg a = true ↔
      ∃ t, activationTypeOf a = Option.some t ∧
        (t = "action" ∨ t = "bonus" ∨ t = "reaction" ∨ t = "special" ∨
         t = "none") ∧ configToggle cfg t = true := by
  rcases hty : activationTypeOf a with _ | t
  · simp [activityAllowed, hty]
  · simp only [activityAllowed, hty, Bool.and_eq_true, Option.some.injEq]
    constructor
    · rintro ⟨hne, hcont⟩
      have hmem : t ∈ allowedActions cfg := by
        simpa using List.mem_of_elem_eq_true hcont
      rcases (mem_allowedActions cfg t).mp hmem with
        ⟨rfl, h⟩ | ⟨rfl, h⟩ | ⟨rfl, h⟩ | ⟨rfl, h⟩ | ⟨rfl, h⟩ <;>
        exact ⟨_, rfl, by simp, by simp [configToggle, h]⟩
    · rintro ⟨t2, rfl, hfive, htog⟩
      refine ⟨?_, ?_⟩
      · rcases hfive with rfl | rfl | rfl | rfl | rfl <;> simp
      · have hmem : t ∈ allowedActions cfg := by
          rw [mem_allowedActions]
          rcases hfive with rfl | rfl | rfl | rfl | rfl <;>
            simp_all [configToggle]
        simpa using List.elem_eq_true_of_mem hmem

/-- The guard !item?.system?.activities?.size shared by isItemAction and
getItemActivationType: the entity is nullish or declares no activity. -/
def noActivities (item : Option Item) : Bool :=
  match item with
  | Option.none => true
  | Option.some it => it.activities.length = 0

/-- Claim C1, counterexample.  The claim states that isItemAction returns
true exactly when the configuration toggle of the entity's classified
category is on.  Take the configuration with only the none toggle on and an
item whose single activity declares no activation type: the classifier
returns the category none, whose toggle is on, yet isItemAction returns
false, because its per-activity test demands a present, truthy activation
type before consulting the toggles, and because it never consults the
category of the classifier at all. -/
theorem c1_counterexample :
    isItemAction cfgNoneOnly (Option.some itemNoType) ≠
      configToggle cfgNoneOnly
        (getItemActivationType (Option.some itemNoType)) := by
  decide

/-- Claim C1, amended.  What isItemAction actually returns: for a nullish
entity or one with no activities, the empty toggle; otherwise true exactly
when SOME activity (not necessarily the first, the one the classifier would
use) declares one of the five known categories and that category's toggle
is on.  An activity whose activation type is absent or the empty string
never qualifies, even when the none toggle is on. -/
theorem c1_eligibility_characterization (cfg : Config) (item : Option Item) :
    isItemAction cfg item = true ↔
      ((noActivities item = true ∧ cfg.empty = true) ∨
       (∃ it, item = Option.some it ∧ ∃ a ∈ it.activities, ∃ t,
          activationTypeOf a = Option.some t ∧
          (t = "action" ∨ t = "bonus" ∨ t = "reaction" ∨ t = "special" ∨
           t = "none") ∧ configToggle cfg t = true)) := by
  rcases item with _ | it
  · simp [isItemAction, noActivities]
  · by_cases hlen : it.activities.length = 0
    · have hnil : it.activities = [] := List.length_eq_zero.mp hlen
      simp [isItemAction, noActivities, hlen, hnil]
    · simp only [isItemAction, noActivities, hlen, if_false, decide_eq_true_eq,
        Option.some.injEq]
      rw [List.any_eq_true]
      constructor
      · rintro ⟨a, ha, hall⟩
        exact Or.inr ⟨it, rfl, a, ha, (activityAllowed_iff cfg a).mp hall⟩
      · rintro (⟨hfalse, _⟩ | ⟨it2, hit, a, ha, hchar⟩)
        · exact absurd hfalse (by simp [hlen])
        · cases hit
          exact ⟨a, ha, (activityAllowed_iff cfg a).mpr hchar⟩

/-- Claim C1, witness for the amended characterization: under the default
configuration an item whose first activity costs an action is eligible. -/
theorem c1_eligibility_characterization_witness :
    isItemAction cfgDefault (Option.some itemAct) = true :=
  (c1_eligibility_characterization cfgDefault (Option.some itemAct)).mpr
    (Or.inr ⟨itemAct, rfl,
      { activation := Option.some { type := Option.some "action" } },
      by decide, "action", by decide, by decide, by decide⟩)

/-- Claim C4: the classifier is total.  An entity with zero declared
activities classifies as empty (the classifier reads no configuration at
all, so this holds regardless of configuration); an entity whose first
activity declares category C classifies as C; and when the first activity's
category field is absent, it classifies as none. -/
theorem c4_classify_total (it : Item) :
    (it.activities = [] →
       getItemActivationType (Option.some it) = "empty") ∧
    (∀ a rest, it.activities = a :: rest →
       ((∀ t, activationTypeOf a = Option.some t →
           getItemActivationType (Option.some it) = t) ∧
        (activationTypeOf a = Option.none →
           getItemActivationType (Option.some it) = "none"))) := by
  refine ⟨fun h => by simp [getItemActivationType, h], ?_⟩
  intro a rest hcons
  constructor
  · intro t ht
    simp [getItemActivationType, hcons, ht]
  · intro ht
    simp [getItemActivationType, hcons, ht]

/-- Claim C4, witness: the three classifier cases evaluated on concrete
items: an activity-free item is empty, itemAct classifies as action, and
itemNoType (first activity without a category field) classifies as none. -/
theorem c4_classify_total_witness :
    getItemActivationType
        (Option.some { activities := [], itype := "loot", relUuid := "rEmpty" })
      = "empty" ∧
    getItemActivationType (Option.some itemAct) = "action" ∧
    getItemActivationType (Option.some itemNoType) = "none" := by
  refine ⟨(c4_classify_total _).1 rfl, ?_, ?_⟩
  · exact ((c4_classify_total itemAct).2 _ _ rfl).1 "action" (by decide)
  · exact ((c4_classify_total itemNoType).2 _ _ rfl).2 (by decide)

/-- With the empty toggle off, filtering a list of optional resolutions by
isItemAction drops exactly the absent entries beyond the eligibility
filter: it equals the present values, kept in order, filtered, and
re-wrapped. -/
lemma filter_isItemAction_map (cfg : Config) (hempty : cfg.empty = false)
    (res : Favorite → Option Item) :
    ∀ l : List Favorite,
      (l.map res).filter (isItemAction cfg) =
        ((l.filterMap res).filter
          (fun i => isItemAction cfg (Option.some i))).map Option.some := by
  intro l
  induction l with
  | nil => rfl
  | cons f l ih =>
    rcases hres : res f with _ | i
    · simp only [List.map_cons, List.filterMap_cons, hres]
      rw [List.filter_cons_of_neg]
      · exact ih
      · simp [isItemAction, hempty]
    · simp only [List.map_cons, List.filterMap_cons, hres]
      by_cases helig : isItemAction cfg (Option.some i) = true
      · rw [List.filter_cons_of_pos (by simpa using helig),
          List.filter_cons_of_pos (by simpa using helig), List.map_cons, ih]
      · rw [List.filter_cons_of_neg (by simpa using helig),
          List.filter_cons_of_neg (by simpa using helig), ih]

/-- Claim C3, counterexample.  The claim says unresolvable favorites are
excluded from the aggregate output under EVERY eligibility configuration.
Under the configuration with only the empty toggle on, an actor whose
single favorite resolves to nothing contributes one absent entry: the
unresolved favorite maps to a nullish item, and isItemAction treats a
nullish item exactly like an activity-free one, returning the empty toggle.
The specification-worded aggregate (specFavoritesAggregate) is empty
there, so the code and the claim disagree. -/
theorem c3_counterexample :
    collectTokenItems cfgEmptyOnly { actor := Option.some actorDangling } ≠
      (specFavoritesAggregate cfgEmptyOnly actorDangling).map Option.some := by
  decide

/-- Claim C3, amended: the exclusion of unresolvable favorites holds for
every eligibility configuration whose empty toggle is off (the module
default).  Under such configurations the aggregate contribution of a token
whose actor declares a non-empty favorites list is exactly the item-typed
favorites that resolve by relative-reference match, in their original
favorites order, passed through the eligibility filter.  When the empty
toggle is on, each unresolvable favorite instead contributes an absent
entry, as c3_counterexample shows. -/
theorem c3_favorites_resolution (cfg : Config) (actor : Actor)
    (hempty : cfg.empty = false) (hfavs : actor.favorites ≠ []) :
    collectTokenItems cfg { actor := Option.some actor } =
      (specFavoritesAggregate cfg actor).map Option.some := by
  have hlen : actor.favorites.length ≠ 0 := by
    have := List.length_pos.mpr hfavs
    omega
  show (candidateItems actor).filter (isItemAction cfg) = _
  unfold candidateItems specFavoritesAggregate
  rw [if_pos hlen]
  exact filter_isItemAction_map cfg hempty (itemByRelUuid actor.items) _

/-- Claim C3, witness: an actor with favorites referencing itemAct, a
dangling id and itemBonus, under the default configuration: the aggregate
is exactly the two resolvable favorites in favorites order. -/
theorem c3_favorites_resolution_witness :
    collectTokenItems cfgDefault { actor := Option.some actorMixedFavs } =
      [Option.some itemAct, Option.some itemBonus] := by
  rw [c3_favorites_resolution cfgDefault actorMixedFavs (by decide) (by decide)]
  decide

/-- Filtering an empty collection yields an empty list for every filter. -/
lemma filterItemsByType_nil (filt : Option String) :
    filterItemsByType [] filt = [] := by
  rcases filt with _ | f
  · rfl
  · show (if f = "" then ([] : List (Option Item))
      else if f = "spell" then List.filter isSpell []
      else List.filter (fun it => getItemActivationType it = f) []) = []
    simp only [List.filter_nil]
    split
    · rfl
    · split <;> rfl

/-- Claim C5: a pass creates and places exactly
min(len(entities), len(freeSlots)) entries, the macros being built from the
first entities in aggregator order; entities beyond the free-slot count are
simply not part of the zip, so they are dropped without error.  The second
and third conjuncts state the count at the pass level, for the filter pass
and for the selection pass in its direct branch; the final conjunct is the
spec scenario: three eligible entities and one free slot (slot 43 of page
5) place exactly the first entity there. -/
theorem c5_placement_bound :
    (∀ page (items : List (Option Item)) (h : Hotbar),
       (placedPairs page items h).length =
         min items.length (freeSlots page h).length ∧
       (placedPairs page items h).map Prod.fst =
         (items.take
           (min items.length (freeSlots page h).length)).map createMacroData) ∧
    (∀ page collected filt (h : Hotbar),
       (updateMacrosForFilterModel page collected filt h).placed.length =
         min (filterItemsByType collected filt).length
           (freeSlots page (destroyMacros page h)).length) ∧
    (∀ cfg tokens st, cfg.experimentalFilters = false → tokens ≠ [] →
       collectItems cfg tokens ≠ [] →
       (updateMacrosForSelectedTokensModel cfg tokens st).2.length =
         min (collectItems cfg tokens).length
           (freeSlots cfg.hotbarPage
             (destroyMacros cfg.hotbarPage st.hotbar)).length) ∧
    placedPairs 5
        [Option.some itemAct, Option.some itemBonus, Option.some itemNoType]
        hotbarOneFree =
      [(createMacroData (Option.some itemAct), 43)] := by
  have hcore : ∀ page (items : List (Option Item)) (h : Hotbar),
      (placedPairs page items h).length =
        min items.length (freeSlots page h).length ∧
      (placedPairs page items h).map Prod.fst =
        (items.take
          (min items.length (freeSlots page h).length)).map createMacroData := by
    intro page items h
    refine ⟨?_, ?_⟩
    · simp only [placedPairs, List.length_zip, List.length_map,
        List.length_take]
      omega
    · rw [placedPairs, List.map_fst_zip _ _
        (by simp only [List.length_map, List.length_take]; omega)]
      congr 1
      rw [List.take_eq_take]
      omega
  refine ⟨hcore, ?_, ?_, by decide⟩
  · intro page collected filt h
    unfold updateMacrosForFilterModel
    by_cases h1 : collected.length = 0
    · rw [if_pos h1]
      have hnil : collected = [] := List.length_eq_zero.mp h1
      rw [hnil, filterItemsByType_nil]
      simp
    · rw [if_neg h1]
      by_cases h2 : (filterItemsByType collected filt).length = 0
      · rw [if_pos h2, h2]
        simp
      · rw [if_neg h2]
        by_cases h3 : (placedPairs page (filterItemsByType collected filt)
            (destroyMacros page h)).length = 0
        · rw [if_pos h3]
          rw [(hcore page (filterItemsByType collected filt)
            (destroyMacros page h)).1] at h3
          simp [← h3]
        · rw [if_neg h3]
          exact (hcore page (filterItemsByType collected filt)
            (destroyMacros page h)).1
  · intro cfg tokens st hexp htok hcoll
    unfold updateMacrosForSelectedTokensModel
    rw [if_neg (by simpa using List.length_pos.mpr htok |>.ne')]
    rw [if_neg (by simpa using List.length_pos.mpr hcoll |>.ne')]
    simp only [hexp, Bool.false_eq_true, if_false]
    by_cases h4 : (placedPairs cfg.hotbarPage (collectItems cfg tokens)
        (destroyMacros cfg.hotbarPage st.hotbar)).length = 0
    · rw [if_pos h4]
      rw [(hcore cfg.hotbarPage (collectItems cfg tokens)
        (destroyMacros cfg.hotbarPage st.hotbar)).1] at h4
      simp [← h4]
    · rw [if_neg h4]
      exact (hcore cfg.hotbarPage (collectItems cfg tokens)
        (destroyMacros cfg.hotbarPage st.hotbar)).1

/-- Claim C5, witness: the mixed-favorites actor contributes two eligible
entities and the one-free-slot hotbar has a single free slot, so the
selection pass places exactly one entry. -/
theorem c5_placement_bound_witness :
    (updateMacrosForSelectedTokensModel cfgDefault
        [{ actor := Option.some actorMixedFavs }]
        { hotbar := hotbarOneFree, collectedItems := [],
          currentFilter := Option.none }).2.length = 1 := by
  rw [c5_placement_bound.2.2.1 cfgDefault
    [{ actor := Option.some actorMixedFavs }]
    { hotbar := hotbarOneFree, collectedItems := [],
      currentFilter := Option.none } rfl (by decide) (by decide)]
  decide

/-- A rejected work queue never recovers: every task chained onto it with a
one-argument then is skipped. -/
lemma chainExec_false (os : List TaskOutcome) :
    chainExec false os = List.replicate os.length false := by
  induction os with
  | nil => rfl
  | cons o rest ih => simp [chainExec, ih, List.replicate]

/-- Claim C2, counterexample.  The claim says that after a pass fails the
next queued pass still executes; under it the execution flags for the
outcome sequence err, ok would be true, true.  In the code the queue is
chained with a one-argument then and no rejection handler anywhere, so the
rejection of the first pass propagates, and the pass queued behind it is
skipped: its execution flag is false. -/
theorem c2_counterexample :
    chainExec true [TaskOutcome.err, TaskOutcome.ok] = [true, false] ∧
    chainExec true [TaskOutcome.err, TaskOutcome.ok] ≠ [true, true] := by
  decide

/-- Claim C2, amended.  Enqueued passes execute strictly sequentially in
FIFO order for as long as every pass fulfills; the first failing pass does
execute, but every pass queued after a failure is skipped, because the
rejection propagates through the one-argument then chain and the queue
promise stays rejected forever. -/
theorem c2_queue_serialization (os₁ os₂ : List TaskOutcome)
    (hok : ∀ o ∈ os₁, o = TaskOutcome.ok) :
    chainExec true os₁ = List.replicate os₁.length true ∧
    chainExec true (os₁ ++ TaskOutcome.err :: os₂) =
      List.replicate os₁.length true ++
        true :: List.replicate os₂.length false := by
  induction os₁ with
  | nil => simp [chainExec, chainExec_false]
  | cons o rest ih =>
    have ho : o = TaskOutcome.ok := hok o (List.mem_cons_self o rest)
    have hrest := ih (fun o' ho' => hok o' (List.mem_cons_of_mem o ho'))
    subst ho
    simp only [chainExec, if_pos rfl, List.cons_append, List.length_cons,
      List.replicate]
    exact ⟨by simp [hrest.1], by simp [hrest.2]⟩

/-- Claim C2, witness: one fulfilled pass followed by a failing one and a
trailing queued pass: the first two execute, the third does not. -/
theorem c2_queue_serialization_witness :
    chainExec true [TaskOutcome.ok] = [true] ∧
    chainExec true [TaskOutcome.ok, TaskOutcome.err, TaskOutcome.ok] =
      [true, true, false] :=
  c2_queue_serialization [TaskOutcome.ok] [TaskOutcome.ok]
    (by intro o ho; simpa using ho)

/-- Claim C7: when every notify call of a burst arrives less than 100 time
units after the previous one, each call cancels the pending timer of its
predecessor, so the burst enqueues exactly one reconciliation pass, and
that pass runs with the selection snapshot of the last call. -/
theorem c7_debounce_coalesces {σ : Type} (evs : List (Nat × σ))
    (hne : evs ≠ [])
    (hgap : List.Chain' (fun e₁ e₂ : Nat × σ => e₂.1 < e₁.1 + 100) evs) :
    debounceEnqueues evs = [(evs.getLast hne).2] := by
  induction evs with
  | nil => exact absurd rfl hne
  | cons e rest ih =>
    rcases rest with _ | ⟨e₂, rest'⟩
    · rcases e with ⟨t, s⟩
      rfl
    · rcases e with ⟨t₁, s₁⟩
      rcases List.chain'_cons.mp hgap with ⟨hlt, htail⟩
      have hstep : debounceEnqueues ((t₁, s₁) :: e₂ :: rest') =
          debounceEnqueues (e₂ :: rest') := by
        rcases e₂ with ⟨t₂, s₂⟩
        simp only [debounceEnqueues, if_pos hlt]
      rw [hstep, ih (by simp) htail,
        List.getLast_cons (by simp : e₂ :: rest' ≠ [])]

/-- Claim C7, witness: three notify calls at times 0, 50 and 120 with
selection snapshots 10, 20 and 30: the gaps are 50 and 70, both inside the
window, so exactly one pass is enqueued and it uses snapshot 30. -/
theorem c7_debounce_coalesces_witness :
    debounceEnqueues [((0 : Nat), (10 : Nat)), (50, 20), (120, 30)] =
      [30] :=
  c7_debounce_coalesces [((0 : Nat), (10 : Nat)), (50, 20), (120, 30)]
    (by decide)
    (List.chain'_cons.mpr ⟨by decide,
      List.chain'_cons.mpr ⟨by decide, List.chain'_singleton _⟩⟩)

/-- After a burst of clicks the global filter is the last clicked value and
one pass per click sits in the queue. -/
lemma processClicks_spec (clicks : List (Option String)) (st : FilterCtl)
    (hne : clicks ≠ []) :
    (processClicks clicks st).currentFilter = clicks.getLast hne ∧
    (processClicks clicks st).queuedPasses =
      st.queuedPasses + clicks.length := by
  induction clicks generalizing st with
  | nil => exact absurd rfl hne
  | cons c rest ih =>
    cases rest with
    | nil => simp [processClicks, handleFilterClickModel]
    | cons c₂ rest' =>
      have hstep : processClicks (c :: c₂ :: rest') st =
          processClicks (c₂ :: rest') (handleFilterClickModel c st) := rfl
      rw [hstep]
      have h := ih (handleFilterClickModel c st) (by simp)
      refine ⟨?_, ?_⟩
      · rw [h.1, List.getLast_cons (by simp : c₂ :: rest' ≠ [])]
      · rw [h.2]
        simp [handleFilterClickModel]
        omega

/-- Claim C10: a reconciliation pass enqueued by a filter click reads the
global currentFilter when the pass begins executing, not a value captured
at enqueue time (the queued thunk calls updateMacrosForFilter with no
argument).  Hence after any non-empty burst of clicks processed before the
queue drains, every queued pass filters the collected items by the LAST
click's category; with two clicks before the first pass runs, both passes
use the second click's category. -/
theorem c10_filter_read_at_run (clicks : List (Option String))
    (hne : clicks ≠ []) (f₀ : Option String)
    (collected : List (Option Item)) :
    runQueuedFilters
        (processClicks clicks { currentFilter := f₀, queuedPasses := 0 })
        collected =
      List.replicate clicks.length
        (filterItemsByType collected (clicks.getLast hne)) := by
  have h := processClicks_spec clicks
    { currentFilter := f₀, queuedPasses := 0 } hne
  rw [runQueuedFilters, h.1, h.2]
  simp

/-- Claim C10, witness: clicks on the action category then the bonus
category, queued before any pass runs: both passes filter by bonus, so from
the collected pair itemAct, itemBonus each pass keeps only itemBonus. -/
theorem c10_filter_read_at_run_witness :
    runQueuedFilters
        (processClicks [Option.some "action", Option.some "bonus"]
          { currentFilter := Option.none, queuedPasses := 0 })
        [Option.some itemAct, Option.some itemBonus] =
      [[Option.some itemBonus], [Option.some itemBonus]] := by
  rw [c10_filter_read_at_run [Option.some "action", Option.some "bonus"]
    (by decide) Option.none [Option.some itemAct, Option.some itemBonus]]
  decide

/-- Free slots are exactly the empty slots of the target page. -/
lemma mem_freeSlots {page i : Nat} {h : Hotbar} :
    i ∈ freeSlots page h ↔ i ∈ pageSlots page ∧ h i = Option.none := by
  simp [freeSlots, List.mem_filter, Option.isNone_iff_eq_none]

/-- Cleanup leaves slots off the target page alone. -/
lemma destroyMacros_off_page {page i : Nat} {h : Hotbar}
    (hi : i ∉ pageSlots page) : destroyMacros page h i = h i := by
  simp [destroyMacros, hi]

/-- Cleanup leaves user-placed (unflagged) macros alone. -/
lemma destroyMacros_nonauto {page i : Nat} {h : Hotbar} {m : Macro}
    (hm : h i = Option.some m) (ha : m.auto = false) :
    destroyMacros page h i = Option.some m := by
  rw [destroyMacros, if_neg, hm]
  rintro ⟨_, hauto⟩
  rw [hm] at hauto
  simp [isAutoSlot, ha] at hauto

/-- Cleanup empties every auto-flagged slot of the target page. -/
lemma destroyMacros_auto {page i : Nat} {h : Hotbar}
    (hp : i ∈ pageSlots page) (ha : isAutoSlot (h i) = true) :
    destroyMacros page h i = Option.none := by
  rw [destroyMacros, if_pos ⟨hp, ha⟩]

/-- The bulk write changes nothing at a slot none of the pairs targets. -/
lemma writePairs_eq_of_forall {i : Nat} :
    ∀ (pairs : List (Macro × Nat)) (h : Hotbar),
      (∀ p ∈ pairs, p.2 ≠ i) → writePairs pairs h i = h i := by
  intro pairs
  induction pairs with
  | nil => intro h _; rfl
  | cons q rest ih =>
    intro h hall
    have hq : q.2 ≠ i := hall q (List.mem_cons_self q rest)
    have hih := ih (fun j => if j = q.2 then Option.some q.1 else h j)
      (fun p hp => hall p (List.mem_cons_of_mem q hp))
    show writePairs rest (fun j => if j = q.2 then Option.some q.1 else h j) i
      = h i
    rw [hih]
    exact if_neg (fun hij : i = q.2 => hq hij.symm)

/-- At any slot, the bulk write either keeps the prior content or installs
one of the written pairs. -/
lemma writePairs_cases (i : Nat) :
    ∀ (pairs : List (Macro × Nat)) (h : Hotbar),
      writePairs pairs h i = h i ∨
      ∃ p ∈ pairs, p.2 = i ∧ writePairs pairs h i = Option.some p.1 := by
  intro pairs
  induction pairs with
  | nil => intro h; exact Or.inl rfl
  | cons q rest ih =>
    intro h
    have hstep : writePairs (q :: rest) h =
        writePairs rest (fun j => if j = q.2 then Option.some q.1 else h j) :=
      rfl
    rcases ih (fun j => if j = q.2 then Option.some q.1 else h j) with
      heq | ⟨p, hp, hpi, heq⟩
    · rw [hstep, heq]
      by_cases hiq : i = q.2
      · exact Or.inr ⟨q, List.mem_cons_self q rest, hiq.symm, by rw [if_pos hiq]⟩
      · exact Or.inl (by rw [if_neg hiq])
    · exact Or.inr ⟨p, List.mem_cons_of_mem q hp, hpi, by rw [hstep, heq]⟩

/-- Every placed pair targets a free slot of the hotbar it was computed
from. -/
lemma placedPairs_slot_mem {page : Nat} {items : List (Option Item)}
    {h : Hotbar} {p : Macro × Nat} (hp : p ∈ placedPairs page items h) :
    p.2 ∈ freeSlots page h := by
  rcases p with ⟨m, s⟩
  exact (List.of_mem_zip hp).2

/-- The filter pass either stops after cleanup, or additionally performs the
bulk write of the pairs placed on the destroyed hotbar. -/
lemma filterPass_cases (page : Nat) (collected : List (Option Item))
    (filt : Option String) (h : Hotbar) :
    ((updateMacrosForFilterModel page collected filt h).hotbar =
        destroyMacros page h ∧
      (updateMacrosForFilterModel page collected filt h).placed = []) ∨
    ∃ X, (updateMacrosForFilterModel page collected filt h).placed =
        placedPairs page X (destroyMacros page h) ∧
      (updateMacrosForFilterModel page collected filt h).hotbar =
        writePairs (placedPairs page X (destroyMacros page h))
          (destroyMacros page h) := by
  unfold updateMacrosForFilterModel
  by_cases h1 : collected.length = 0
  · rw [if_pos h1]
    exact Or.inl ⟨rfl, rfl⟩
  · rw [if_neg h1]
    by_cases h2 : (filterItemsByType collected filt).length = 0
    · rw [if_pos h2]
      exact Or.inl ⟨rfl, rfl⟩
    · rw [if_neg h2]
      by_cases h3 : (placedPairs page (filterItemsByType collected filt)
          (destroyMacros page h)).length = 0
      · rw [if_pos h3]
        exact Or.inl ⟨rfl, rfl⟩
      · rw [if_neg h3]
        exact Or.inr ⟨filterItemsByType collected filt, rfl, rfl⟩

/-- The selection pass either stops after cleanup, or additionally performs
the bulk write of pairs placed on the destroyed hotbar, for some item
list. -/
lemma selPass_cases (cfg : Config) (tokens : List Token) (st : ModState) :
    ((updateMacrosForSelectedTokensModel cfg tokens st).1.hotbar =
        destroyMacros cfg.hotbarPage st.hotbar ∧
      (updateMacrosForSelectedTokensModel cfg tokens st).2 = []) ∨
    ∃ X, (updateMacrosForSelectedTokensModel cfg tokens st).2 =
        placedPairs cfg.hotbarPage X (destroyMacros cfg.hotbarPage st.hotbar) ∧
      (updateMacrosForSelectedTokensModel cfg tokens st).1.hotbar =
        writePairs
          (placedPairs cfg.hotbarPage X (destroyMacros cfg.hotbarPage st.hotbar))
          (destroyMacros cfg.hotbarPage st.hotbar) := by
  unfold updateMacrosForSelectedTokensModel
  by_cases h1 : tokens.length = 0
  · rw [if_pos h1]
    exact Or.inl ⟨rfl, rfl⟩
  · rw [if_neg h1]
    by_cases h2 : (collectItems cfg tokens).length = 0
    · rw [if_pos h2]
      exact Or.inl ⟨rfl, rfl⟩
    · rw [if_neg h2]
      by_cases h3 : cfg.experimentalFilters = true
      · simp only [h3, if_true]
        rcases filterPass_cases cfg.hotbarPage (collectItems cfg tokens)
            st.currentFilter st.hotbar with ⟨hh, hp⟩ | ⟨X, hp, hh⟩
        · exact Or.inl ⟨hh, hp⟩
        · exact Or.inr ⟨X, hp, hh⟩
      · simp only [Bool.not_eq_true] at h3
        simp only [h3, Bool.false_eq_true, if_false]
        by_cases h4 : (placedPairs cfg.hotbarPage (collectItems cfg tokens)
            (destroyMacros cfg.hotbarPage st.hotbar)).length = 0
        · rw [if_pos h4]
          exact Or.inl ⟨rfl, rfl⟩
        · rw [if_neg h4]
          exact Or.inr ⟨collectItems cfg tokens, rfl, rfl⟩

/-- Placement on a destroyed hotbar never touches a slot off the target
page. -/
lemma reconcile_off_page {page : Nat} {X : List (Option Item)} {h : Hotbar}
    {i : Nat} (hi : i ∉ pageSlots page) :
    writePairs (placedPairs page X (destroyMacros page h))
      (destroyMacros page h) i = h i := by
  rw [writePairs_eq_of_forall _ _ ?_, destroyMacros_off_page hi]
  intro p hp hpi
  exact hi (hpi ▸ (mem_freeSlots.mp (placedPairs_slot_mem hp)).1)

/-- Placement on a destroyed hotbar never deletes or reassigns a
user-placed macro: the written slots were free after cleanup, and cleanup
spares unflagged macros. -/
lemma reconcile_nonauto {page : Nat} {X : List (Option Item)} {h : Hotbar}
    {i : Nat} {m : Macro} (hm : h i = Option.some m) (ha : m.auto = false) :
    writePairs (placedPairs page X (destroyMacros page h))
      (destroyMacros page h) i = Option.some m := by
  have hd : destroyMacros page h i = Option.some m :=
    destroyMacros_nonauto hm ha
  rw [writePairs_eq_of_forall _ _ ?_, hd]
  intro p hp hpi
  have hfree := (mem_freeSlots.mp (placedPairs_slot_mem hp)).2
  rw [hpi, hd] at hfree
  exact Option.noConfusion hfree

/-- After cleanup and placement, a slot that held an auto macro is empty or
holds one of the newly placed pairs. -/
lemma auto_slot_after_write {page : Nat} {X : List (Option Item)}
    {h : Hotbar} {i : Nat} (hp : i ∈ pageSlots page)
    (ha : isAutoSlot (h i) = true) :
    writePairs (placedPairs page X (destroyMacros page h))
        (destroyMacros page h) i = Option.none ∨
      ∃ p ∈ placedPairs page X (destroyMacros page h), p.2 = i ∧
        writePairs (placedPairs page X (destroyMacros page h))
          (destroyMacros page h) i = Option.some p.1 := by
  rcases writePairs_cases i (placedPairs page X (destroyMacros page h))
      (destroyMacros page h) with heq | ⟨p, hmem, hpi, heq⟩
  · exact Or.inl (by rw [heq, destroyMacros_auto hp ha])
  · exact Or.inr ⟨p, hmem, hpi, heq⟩

/-- A concrete module state used by witnesses: the mixed hotbar, no cached
items, no active filter. -/
def stMixed : ModState :=
  { hotbar := hotbarMixed, collectedItems := [],
    currentFilter := Option.none }

/-- Claim C6: every reconciliation pass (the filter pass and the
selection pass alike) performs the auto-macro cleanup before any
placement, so in the final hotbar a target-page slot that held an
auto-marked macro is either empty or holds one of the entries the pass
itself just placed; and when the pass's (filtered) entity list is empty,
the pass places nothing and its net effect is exactly the cleanup. -/
theorem c6_cleanup_precedes_placement :
    (∀ page collected filt (h : Hotbar) i, i ∈ pageSlots page →
       isAutoSlot (h i) = true →
       ((updateMacrosForFilterModel page collected filt h).hotbar i =
           Option.none ∨
        ∃ p ∈ (updateMacrosForFilterModel page collected filt h).placed,
          p.2 = i ∧
          (updateMacrosForFilterModel page collected filt h).hotbar i =
            Option.some p.1)) ∧
    (∀ page collected filt (h : Hotbar),
       filterItemsByType collected filt = [] →
       (updateMacrosForFilterModel page collected filt h).hotbar =
           destroyMacros page h ∧
         (updateMacrosForFilterModel page collected filt h).placed = []) ∧
    (∀ cfg tokens st i, i ∈ pageSlots cfg.hotbarPage →
       isAutoSlot (st.hotbar i) = true →
       ((updateMacrosForSelectedTokensModel cfg tokens st).1.hotbar i =
           Option.none ∨
        ∃ p ∈ (updateMacrosForSelectedTokensModel cfg tokens st).2,
          p.2 = i ∧
          (updateMacrosForSelectedTokensModel cfg tokens st).1.hotbar i =
            Option.some p.1)) ∧
    (∀ cfg tokens st, collectItems cfg tokens = [] →
       (updateMacrosForSelectedTokensModel cfg tokens st).1.hotbar =
           destroyMacros cfg.hotbarPage st.hotbar ∧
         (updateMacrosForSelectedTokensModel cfg tokens st).2 = []) := by
  refine ⟨?_, ?_, ?_, ?_⟩
  · intro page collected filt h i hp ha
    rcases filterPass_cases page collected filt h with ⟨hh, hpl⟩ |
      ⟨X, hpl, hh⟩
    · exact Or.inl (by rw [hh, destroyMacros_auto hp ha])
    · rw [hh, hpl]
      exact auto_slot_after_write hp ha
  · intro page collected filt h hfilt
    unfold updateMacrosForFilterModel
    by_cases h1 : collected.length = 0
    · rw [if_pos h1]
      exact ⟨rfl, rfl⟩
    · rw [if_neg h1, if_pos (by rw [hfilt]; rfl)]
      exact ⟨rfl, rfl⟩
  · intro cfg tokens st i hp ha
    rcases selPass_cases cfg tokens st with ⟨hh, hpl⟩ | ⟨X, hpl, hh⟩
    · exact Or.inl (by rw [hh, destroyMacros_auto hp ha])
    · rw [hh, hpl]
      exact auto_slot_after_write hp ha
  · intro cfg tokens st hcoll
    unfold updateMacrosForSelectedTokensModel
    by_cases h1 : tokens.length = 0
    · rw [if_pos h1]
      exact ⟨rfl, rfl⟩
    · rw [if_neg h1, if_pos (by rw [hcoll]; rfl)]
      exact ⟨rfl, rfl⟩

/-- Claim C6, witness: on the mixed hotbar (auto macro at slot 41 of page
5), a filter pass with one collected action item leaves slot 41 empty or
re-placed; a filter pass over an empty collection and a selection pass over
an empty selection reduce to exactly the cleanup with nothing placed. -/
theorem c6_cleanup_precedes_placement_witness :
    ((updateMacrosForFilterModel 5 [Option.some itemAct] Option.none
          hotbarMixed).hotbar 41 = Option.none ∨
      ∃ p ∈ (updateMacrosForFilterModel 5 [Option.some itemAct] Option.none
          hotbarMixed).placed, p.2 = 41 ∧
        (updateMacrosForFilterModel 5 [Option.some itemAct] Option.none
          hotbarMixed).hotbar 41 = Option.some p.1) ∧
    ((updateMacrosForFilterModel 5 [] Option.none hotbarMixed).hotbar =
        destroyMacros 5 hotbarMixed ∧
      (updateMacrosForFilterModel 5 [] Option.none hotbarMixed).placed =
        []) ∧
    ((updateMacrosForSelectedTokensModel cfgDefault [] stMixed).1.hotbar =
        destroyMacros 5 hotbarMixed ∧
      (updateMacrosForSelectedTokensModel cfgDefault [] stMixed).2 = []) :=
  ⟨(c6_cleanup_precedes_placement.1 5 [Option.some itemAct] Option.none
      hotbarMixed 41 (by decide) (by decide)),
   (c6_cleanup_precedes_placement.2.1 5 [] Option.none hotbarMixed rfl),
   (c6_cleanup_precedes_placement.2.2.2 cfgDefault [] stMixed rfl)⟩

/-- Claim C8: a reconciliation pass over an empty selection resets the
active category filter to null, empties the collected-items cache, places
nothing, removes every auto-marked entry of the target page, and leaves
every other slot untouched. -/
theorem c8_empty_selection (cfg : Config) (st : ModState) :
    (updateMacrosForSelectedTokensModel cfg [] st).1.currentFilter =
        Option.none ∧
    (updateMacrosForSelectedTokensModel cfg [] st).1.collectedItems = [] ∧
    (updateMacrosForSelectedTokensModel cfg [] st).2 = [] ∧
    (∀ i, i ∈ pageSlots cfg.hotbarPage → isAutoSlot (st.hotbar i) = true →
       (updateMacrosForSelectedTokensModel cfg [] st).1.hotbar i =
         Option.none) ∧
    (∀ i, ¬(i ∈ pageSlots cfg.hotbarPage ∧ isAutoSlot (st.hotbar i) = true) →
       (updateMacrosForSelectedTokensModel cfg [] st).1.hotbar i =
         st.hotbar i) := by
  have hred : updateMacrosForSelectedTokensModel cfg [] st =
      ({ hotbar := destroyMacros cfg.hotbarPage st.hotbar,
         collectedItems := [], currentFilter := Option.none }, []) := rfl
  rw [hred]
  refine ⟨rfl, rfl, rfl, ?_, ?_⟩
  · intro i hp ha
    exact destroyMacros_auto hp ha
  · intro i hni
    exact if_neg hni

/-- Claim C8, witness: the default configuration on the mixed state: the
filter is reset, the cache and placement lists are empty, the auto macro at
slot 41 is removed and the user macro at slot 42 is untouched. -/
theorem c8_empty_selection_witness :
    (updateMacrosForSelectedTokensModel cfgDefault [] stMixed).1.currentFilter
        = Option.none ∧
    (updateMacrosForSelectedTokensModel cfgDefault [] stMixed).1.hotbar 41 =
        Option.none ∧
    (updateMacrosForSelectedTokensModel cfgDefault [] stMixed).1.hotbar 42 =
        stMixed.hotbar 42 :=
  ⟨(c8_empty_selection cfgDefault stMixed).1,
   (c8_empty_selection cfgDefault stMixed).2.2.2.1 41 (by decide) (by decide),
   (c8_empty_selection cfgDefault stMixed).2.2.2.2 42 (by decide)⟩

/-- Claim C9: every reconciliation pass (filter pass and selection pass)
leaves every slot outside the configured target page unchanged, and never
deletes or reassigns a user-placed (unflagged) entry anywhere: cleanup
removes only auto-marked macros and placement writes only to slots that
were free after cleanup. -/
theorem c9_frame_conditions :
    (∀ page collected filt (h : Hotbar) i, i ∉ pageSlots page →
       (updateMacrosForFilterModel page collected filt h).hotbar i = h i) ∧
    (∀ page collected filt (h : Hotbar) i m, h i = Option.some m →
       m.auto = false →
       (updateMacrosForFilterModel page collected filt h).hotbar i =
         Option.some m) ∧
    (∀ cfg tokens st i, i ∉ pageSlots cfg.hotbarPage →
       (updateMacrosForSelectedTokensModel cfg tokens st).1.hotbar i =
         st.hotbar i) ∧
    (∀ cfg tokens st i m, st.hotbar i = Option.some m → m.auto = false →
       (updateMacrosForSelectedTokensModel cfg tokens st).1.hotbar i =
         Option.some m) := by
  refine ⟨?_, ?_, ?_, ?_⟩
  · intro page collected filt h i hi
    rcases filterPass_cases page collected filt h with ⟨hh, _⟩ | ⟨X, _, hh⟩
    · rw [hh, destroyMacros_off_page hi]
    · rw [hh, reconcile_off_page hi]
  · intro page collected filt h i m hm ha
    rcases filterPass_cases page collected filt h with ⟨hh, _⟩ | ⟨X, _, hh⟩
    · rw [hh, destroyMacros_nonauto hm ha]
    · rw [hh, reconcile_nonauto hm ha]
  · intro cfg tokens st i hi
    rcases selPass_cases cfg tokens st with ⟨hh, _⟩ | ⟨X, _, hh⟩
    · rw [hh, destroyMacros_off_page hi]
    · rw [hh, reconcile_off_page hi]
  · intro cfg tokens st i m hm ha
    rcases selPass_cases cfg tokens st with ⟨hh, _⟩ | ⟨X, _, hh⟩
    · rw [hh, destroyMacros_nonauto hm ha]
    · rw [hh, reconcile_nonauto hm ha]

/-- Claim C9, witness: on the mixed hotbar a filter pass with one action
item leaves the off-page user macro at slot 7 and the page-5 user macro at
slot 42 exactly as they were. -/
theorem c9_frame_conditions_witness :
    (updateMacrosForFilterModel 5 [Option.some itemAct] Option.none
        hotbarMixed).hotbar 7 = hotbarMixed 7 ∧
    (updateMacrosForFilterModel 5 [Option.some itemAct] Option.none
        hotbarMixed).hotbar 42 =
      Option.some { auto := false, payload := Option.none } :=
  ⟨c9_frame_conditions.1 5 [Option.some itemAct] Option.none hotbarMixed 7
      (by decide),
   c9_frame_conditions.2.1 5 [Option.some itemAct] Option.none hotbarMixed 42
      { auto := false, payload := Option.none } (by decide) rfl⟩

end JayMacros
